import Mathlib

/-!
# ObjectViewer: the `Scene` orchestrator (`src/objects/scene.cpp`)

A shallow embedding of `Scene` and of the state it drives.

* C++ `float` values are embedded as rationals (`ℚ`): arithmetic is exact, so
  statements about sums hold exactly here and up to rounding on the machine.
  Comparisons and assignments of finite values behave identically.
* The GPU rasterisation state touched by `scene.cpp` is an explicit record
  (`GLState`); each `gl*` call is the corresponding field update.
* Collaborators whose sources are outside `scene.cpp` (camera, light, shader,
  managers) are objects that record the calls they receive; the camera also
  carries the projection parameters its getters return.
-/

namespace ObjectViewer

/-! ## Vectors -/

/-- Three-component vector (`QVector3D`) over exact scalars. -/
structure QVector3D where
  x : ℚ
  y : ℚ
  z : ℚ
  deriving DecidableEq

namespace QVector3D

/-- Default-constructed vector, as in the member initialiser `m_v()`. -/
def zero : QVector3D := ⟨0, 0, 0⟩

/-- Component-wise `vector * factor`. -/
def scale (v : QVector3D) (f : ℚ) : QVector3D := ⟨v.x * f, v.y * f, v.z * f⟩

end QVector3D

/-! ## Camera -/

/-- Values of `Camera::ProjectionType` that `Scene::resize` tests for. -/
inductive ProjectionType where
  | OrthogonalProjection
  | PerspectiveProjection
  deriving DecidableEq

/-- Values of `Camera::CameraTranslationOption` used by `Scene::update`. -/
inductive CameraTranslationOption where
  | TranslateViewCenter
  | DontTranslateViewCenter
  deriving DecidableEq

/-- Calls that `scene.cpp` issues to its camera, with their arguments. -/
inductive CameraCall where
  | setPosition (p : QVector3D)
  | setViewCenter (p : QVector3D)
  | setUpVector (p : QVector3D)
  | translate (v : QVector3D) (option : CameraTranslationOption)
  | pan (angle : ℚ) (axis : QVector3D)
  | tilt (angle : ℚ)
  | setPerspectiveProjection (fieldOfView aspect nearPlane farPlane : ℚ)
  | setOrthographicProjection (left right bottom top nearPlane farPlane : ℚ)
  deriving DecidableEq

/-- Modelled from the spec: the `Camera` class (camera.h / camera.cpp) is not
part of the available sources. Per the data model it holds a projection type
with the associated parameters (fov/aspect/near/far and
left/right/bottom/top/near/far); the getters used by `Scene::resize` read these
fields. `calls` records, in order, every call the scene has issued to it. -/
structure Camera where
  projectionType : ProjectionType
  fieldOfView : ℚ
  aspectRatio : ℚ
  nearPlane : ℚ
  farPlane : ℚ
  left : ℚ
  right : ℚ
  bottom : ℚ
  top : ℚ
  calls : List CameraCall
  deriving DecidableEq

namespace Camera

/-- Record a call whose effect on the view transform is outside this model. -/
def record (c : Camera) (call : CameraCall) : Camera :=
  { c with calls := c.calls ++ [call] }

/-- Call `Camera::setPosition`. -/
def setPosition (c : Camera) (p : QVector3D) : Camera := c.record (.setPosition p)

/-- Call `Camera::setViewCenter`. -/
def setViewCenter (c : Camera) (p : QVector3D) : Camera := c.record (.setViewCenter p)

/-- Call `Camera::setUpVector`. -/
def setUpVector (c : Camera) (p : QVector3D) : Camera := c.record (.setUpVector p)

/-- Call `Camera::translate`. -/
def translate (c : Camera) (v : QVector3D) (option : CameraTranslationOption) : Camera :=
  c.record (.translate v option)

/-- Call `Camera::pan` about an axis. -/
def pan (c : Camera) (angle : ℚ) (axis : QVector3D) : Camera := c.record (.pan angle axis)

/-- Call `Camera::tilt`. -/
def tilt (c : Camera) (angle : ℚ) : Camera := c.record (.tilt angle)

/-- Modelled from the spec: `Camera::setPerspectiveProjection` is not part of
the available sources; it stores the four perspective parameters and makes
Perspective the active projection type. -/
def setPerspectiveProjection (c : Camera) (fieldOfView aspect nearPlane farPlane : ℚ) :
    Camera :=
  { c with
    projectionType := .PerspectiveProjection
    fieldOfView := fieldOfView
    aspectRatio := aspect
    nearPlane := nearPlane
    farPlane := farPlane
    calls := c.calls ++ [.setPerspectiveProjection fieldOfView aspect nearPlane farPlane] }

/-- Modelled from the spec: `Camera::setOrthographicProjection` is not part of
the available sources; it stores the six bounds and makes Orthographic the
active projection type. -/
def setOrthographicProjection (c : Camera) (left right bottom top nearPlane farPlane : ℚ) :
    Camera :=
  { c with
    projectionType := .OrthogonalProjection
    left := left
    right := right
    bottom := bottom
    top := top
    nearPlane := nearPlane
    farPlane := farPlane
    calls := c.calls ++
      [.setOrthographicProjection left right bottom top nearPlane farPlane] }

/-- Same camera with the call record emptied: the projection state alone. -/
def projectionState (c : Camera) : Camera := { c with calls := [] }

/-- Calls received between two snapshots of the same camera. -/
def callsSince (before after : Camera) : List CameraCall :=
  after.calls.drop before.calls.length

end Camera

namespace CameraCall

/-- Is the call a `pan`? -/
def isPan : CameraCall → Bool
  | .pan _ _ => true
  | _ => false

/-- Is the call a `tilt`? -/
def isTilt : CameraCall → Bool
  | .tilt _ => true
  | _ => false

/-- Is the call a `translate`? -/
def isTranslate : CameraCall → Bool
  | .translate _ _ => true
  | _ => false

end CameraCall

/-! ## GPU rasterisation state -/

/-- Polygon rasterisation modes passed to `glPolygonMode`. -/
inductive PolygonMode where
  | GL_FILL
  | GL_LINE
  | GL_POINT
  deriving DecidableEq

/-- Depth comparison functions; `glDepthFunc` defaults to `GL_LESS`. -/
inductive DepthFunc where
  | GL_LESS
  | GL_LEQUAL
  deriving DecidableEq

/-- Part of the OpenGL context state that `scene.cpp` writes. -/
structure GLState where
  viewport : Int × Int × Int × Int
  clearColor : ℚ × ℚ × ℚ × ℚ
  depthTest : Bool
  depthFunc : DepthFunc
  cullFace : Bool
  polygonMode : PolygonMode
  multisample : Bool
  deriving DecidableEq

/-! ## Collaborators that only receive calls -/

/-- Calls issued to the spot light by `Scene::initialize`. -/
inductive LightCall where
  | setSpecularColor (r g b : ℚ)
  | setDiffuseColor (r g b : ℚ)
  | setLinearAttenuation (a : ℚ)
  | setIntensity (i : ℚ)
  | setCutOff (degrees : ℚ)
  deriving DecidableEq

/-- Calls issued to the shader wrapper and its program. -/
inductive ShaderCall where
  | setVertexShader (path : String)
  | setFragmentShader (path : String)
  | link
  | bind
  | setUniformValue (name : String) (value : Int)
  deriving DecidableEq

/-- Function table returned by `versionFunctions<QOpenGLFunctions_4_3_Core>()`. -/
structure GLFunctions where
  initialized : Bool
  deriving DecidableEq

/-- Request `loadModel(name, filename, shader)` handed to the model manager. -/
structure ModelRequest where
  name : String
  filename : String
  deriving DecidableEq

/-- Concrete manager classes instantiated by `Scene::initialize`. -/
inductive Manager where
  | ModelManager
  | MaterialManager
  | TextureManager
  | MeshManager
  deriving DecidableEq

/-! ## Lighting mode -/

/-- Modelled from the spec: the `LightMode` enumeration is declared in scene.h,
which is not part of the available sources. Its enumerators are the three
lighting modes in the order the spec lists them. -/
inductive LightMode where
  | PerFragmentPhong
  | PerFragmentBlinnPhong
  | RimLighting
  deriving DecidableEq

/-- Modelled from the spec: the trailing enumerator `LightModeCount` of the
enumeration in scene.h, the number of lighting modes. -/
def LightModeCount : Nat := 3

/-- Table built by the constructor for `count` modes: `count` value-initialised
(zero) entries from `m_lightModeSubroutines(count)`, then the loop
`for (i = 1; i < count; i++) table[i] = i`. -/
def lightModeSubroutines (count : Nat) : List Nat :=
  (List.range' 1 (count - 1)).foldl (fun table i => table.set i i) (List.replicate count 0)

/-! ## Scene -/

/-- Member state of `Scene`. -/
structure Scene where
  m_camera : Camera
  m_light : List LightCall
  m_v : QVector3D
  m_viewCenterFixed : Bool
  m_panAngle : ℚ
  m_tiltAngle : ℚ
  m_time : ℚ
  m_metersToUnits : ℚ
  m_lightMode : LightMode
  m_lightModeSubroutines : List Nat
  m_funcs : Option GLFunctions
  m_shader : Option (List ShaderCall)
  m_modelManager : Option Manager
  m_materialManager : Option Manager
  m_textureManager : Option Manager
  m_meshManager : Option Manager
  m_model : Option ModelRequest
  deriving DecidableEq

/-- Scene together with the GPU state of the context it renders into. -/
structure World where
  scene : Scene
  gl : GLState
  deriving DecidableEq

/-- Qt's `qFuzzyIsNull(float f)`: `qAbs(f) <= 0.00001f`. -/
def qFuzzyIsNull (f : ℚ) : Bool := decide (|f| ≤ 1 / 100000)

namespace Scene

/-- Constructor `Scene::Scene`; `camera` is the freshly constructed
`new Camera(this)`. -/
def new (camera : Camera) : Scene :=
  { m_camera :=
      ((camera.setPosition ⟨-8, 6, -7⟩).setViewCenter ⟨0, 0, 0⟩).setUpVector ⟨0, 1, 0⟩
    m_light := []
    m_v := QVector3D.zero
    m_viewCenterFixed := false
    m_panAngle := 0
    m_tiltAngle := 0
    m_time := 0
    m_metersToUnits := 1 / 20
    m_lightMode := .PerFragmentPhong
    m_lightModeSubroutines := lightModeSubroutines LightModeCount
    m_funcs := none
    m_shader := none
    m_modelManager := none
    m_materialManager := none
    m_textureManager := none
    m_meshManager := none
    m_model := none }

/-- Method `Scene::update(float t)`. -/
def update (s : Scene) (t : ℚ) : Scene :=
  let dt := t - s.m_time
  let s := { s with m_time := t }
  let option :=
    if s.m_viewCenterFixed then CameraTranslationOption.DontTranslateViewCenter
    else CameraTranslationOption.TranslateViewCenter
  let s := { s with
    m_camera := s.m_camera.translate ((s.m_v.scale dt).scale s.m_metersToUnits) option }
  let s :=
    if ! qFuzzyIsNull s.m_panAngle then
      { s with m_camera := s.m_camera.pan s.m_panAngle ⟨0, 1, 0⟩, m_panAngle := 0 }
    else s
  if ! qFuzzyIsNull s.m_tiltAngle then
    { s with m_camera := s.m_camera.tilt s.m_tiltAngle, m_tiltAngle := 0 }
  else s

/-- Method `Scene::togglePhong(bool state)`. -/
def togglePhong (s : Scene) (state : Bool) : Scene :=
  if state then { s with m_lightMode := .PerFragmentPhong } else s

/-- Method `Scene::toggleBlinnPhong(bool state)`. -/
def toggleBlinnPhong (s : Scene) (state : Bool) : Scene :=
  if state then { s with m_lightMode := .PerFragmentBlinnPhong } else s

/-- Method `Scene::toggleRimLighting(bool state)`. -/
def toggleRimLighting (s : Scene) (state : Bool) : Scene :=
  if state then { s with m_lightMode := .RimLighting } else s

/-- Method `Scene::prepareShaders()`: a new shader wrapper receives both
stage paths and is linked. -/
def prepareShaders (s : Scene) : Scene :=
  let shader : List ShaderCall :=
    [.setVertexShader ":/resources/shaders/per-fragment-blinn-phong.vert",
     .setFragmentShader ":/resources/shaders/per-fragment-blinn-phong.frag",
     .link]
  { s with m_shader := some shader }

end Scene

namespace World

/-- Method `Scene::resize(int width, int height)`. The aspect ratio is the
quotient of the two sizes converted to scalars; a zero `height` (infinite or
undefined on the machine) is outside what this quotient represents. -/
def resize (w : World) (width height : Int) : World :=
  let gl := { w.gl with viewport := (0, 0, width, height) }
  let cam := w.scene.m_camera
  if cam.projectionType = .PerspectiveProjection then
    let aspect : ℚ := (width : ℚ) / (height : ℚ)
    { scene := { w.scene with
        m_camera := cam.setPerspectiveProjection cam.fieldOfView aspect cam.nearPlane
          cam.farPlane }
      gl := gl }
  else if cam.projectionType = .OrthogonalProjection then
    { scene := { w.scene with
        m_camera := cam.setOrthographicProjection cam.left cam.right cam.bottom cam.top
          cam.nearPlane cam.farPlane }
      gl := gl }
  else { w with gl := gl }

/-- Method `Scene::toggleFill(bool state)`. -/
def toggleFill (w : World) (state : Bool) : World :=
  if state then { w with gl := { w.gl with cullFace := true, polygonMode := .GL_FILL } }
  else w

/-- Method `Scene::toggleWireframe(bool state)`. -/
def toggleWireframe (w : World) (state : Bool) : World :=
  if state then { w with gl := { w.gl with cullFace := false, polygonMode := .GL_LINE } }
  else w

/-- Method `Scene::togglePoints(bool state)`. -/
def togglePoints (w : World) (state : Bool) : World :=
  if state then { w with gl := { w.gl with cullFace := false, polygonMode := .GL_POINT } }
  else w

/-- Method `Scene::toggleAA(bool state)`. -/
def toggleAA (w : World) (state : Bool) : World :=
  { w with gl := { w.gl with multisample := state } }

/-- How `Scene::initialize` ends: the process is terminated by `qFatal` (with
the world as it stands at that point), or the method returns. -/
inductive InitOutcome where
  | fatal (message : String) (atExit : World)
  | initialized (after : World)
  deriving DecidableEq

/-- Method `Scene::initialize()`; `versionFunctions` is what
`m_context->versionFunctions<QOpenGLFunctions_4_3_Core>()` returns, `none` for
a null pointer. -/
def initializeScene (versionFunctions : Option GLFunctions) (w : World) : InitOutcome :=
  let s := { w.scene with m_funcs := versionFunctions }
  match versionFunctions with
  | none => .fatal "Requires OpenGL >= 4.3" { w with scene := s }
  | some funcs =>
    let s := { s with m_funcs := some { funcs with initialized := true } }
    let s := s.prepareShaders
    let gl := { w.gl with
      clearColor := (39 / 100, 39 / 100, 39 / 100, 0)
      depthTest := true
      depthFunc := .GL_LEQUAL
      cullFace := true }
    let uniforms : List ShaderCall :=
      [.bind, .setUniformValue "texColor" 0, .setUniformValue "texNormal" 1]
    let s := { s with m_shader := s.m_shader.map (fun calls => calls ++ uniforms) }
    let spot : List LightCall :=
      [.setSpecularColor 1 1 1, .setDiffuseColor 1 1 1, .setLinearAttenuation (1 / 10),
       .setIntensity 2, .setCutOff 20]
    let s := { s with m_light := s.m_light ++ spot }
    let s := { s with m_modelManager := some .ModelManager }
    let s := { s with m_materialManager := some .MaterialManager }
    let s := { s with m_textureManager := some .TextureManager }
    let s := { s with m_meshManager := some .MeshManager }
    let s := { s with m_model := some ⟨"UH60", "assets/blackhawk/uh60.lwo"⟩ }
    .initialized { scene := s, gl := gl }

end World

/-! ## Sequences of scene operations -/

/-- Operations a client can invoke on an existing scene. -/
inductive SceneOp where
  | togglePhong (state : Bool)
  | toggleBlinnPhong (state : Bool)
  | toggleRimLighting (state : Bool)
  | update (t : ℚ)
  | resize (width height : Int)
  | toggleFill (state : Bool)
  | toggleWireframe (state : Bool)
  | togglePoints (state : Bool)
  | toggleAA (state : Bool)
  deriving DecidableEq

/-- Perform one operation. -/
def World.step (w : World) : SceneOp → World
  | .togglePhong b => { w with scene := w.scene.togglePhong b }
  | .toggleBlinnPhong b => { w with scene := w.scene.toggleBlinnPhong b }
  | .toggleRimLighting b => { w with scene := w.scene.toggleRimLighting b }
  | .update t => { w with scene := w.scene.update t }
  | .resize width height => w.resize width height
  | .toggleFill b => w.toggleFill b
  | .toggleWireframe b => w.toggleWireframe b
  | .togglePoints b => w.togglePoints b
  | .toggleAA b => w.toggleAA b

/-- Perform a sequence of operations, first to last. -/
def World.run (w : World) (ops : List SceneOp) : World := ops.foldl World.step w

/-- Perform a sequence of `update` calls, first to last. -/
def Scene.updates (s : Scene) (ts : List ℚ) : Scene := ts.foldl Scene.update s

/-! ## The lighting state machine as the specification words it -/

/-- Transition of the specified state machine: a light-mode toggle called with
`true` selects its own mode; no other operation selects a mode. -/
def SceneOp.selectedMode : SceneOp → Option LightMode
  | .togglePhong true => some .PerFragmentPhong
  | .toggleBlinnPhong true => some .PerFragmentBlinnPhong
  | .toggleRimLighting true => some .RimLighting
  | _ => none

/-- Specified active mode after a sequence of operations on a new scene: the
mode of the last light-mode toggle called with `true`, or the initial
PerFragmentPhong when there is none. -/
def specLightMode (ops : List SceneOp) : LightMode :=
  ((ops.filterMap SceneOp.selectedMode).getLast?).getD .PerFragmentPhong

/-! ## Calls issued by one `update`, and sample states -/

/-- Pan calls that `update` issues for a pending angle. -/
def panCalls (angle : ℚ) : List CameraCall :=
  if qFuzzyIsNull angle then [] else [.pan angle ⟨0, 1, 0⟩]

/-- Tilt calls that `update` issues for a pending angle. -/
def tiltCalls (angle : ℚ) : List CameraCall :=
  if qFuzzyIsNull angle then [] else [.tilt angle]

/-- Translate call that `update` issues at time `t`. -/
def translateCall (s : Scene) (t : ℚ) : CameraCall :=
  .translate ((s.m_v.scale (t - s.m_time)).scale s.m_metersToUnits)
    (if s.m_viewCenterFixed then .DontTranslateViewCenter else .TranslateViewCenter)

/-- Camera without pending calls, perspective projection. -/
def exampleCamera : Camera :=
  { projectionType := .PerspectiveProjection
    fieldOfView := 60
    aspectRatio := 1
    nearPlane := 1 / 10
    farPlane := 1024
    left := -1
    right := 1
    bottom := -1
    top := 1
    calls := [] }

/-- New scene with a pending pan of 1 and a pending tilt of 2. -/
def exampleScene : Scene :=
  { Scene.new exampleCamera with m_panAngle := 1, m_tiltAngle := 2, m_v := ⟨1, 2, 3⟩ }

/-- GPU state of a context on which nothing has been set yet. -/
def exampleGL : GLState :=
  { viewport := (0, 0, 0, 0)
    clearColor := (0, 0, 0, 0)
    depthTest := false
    depthFunc := .GL_LESS
    cullFace := false
    polygonMode := .GL_FILL
    multisample := false }

/-- New scene in a context on which nothing has been set yet. -/
def exampleWorld : World := { scene := Scene.new exampleCamera, gl := exampleGL }

/-! ## Facts about `update` -/

theorem qFuzzyIsNull_iff (f : ℚ) : qFuzzyIsNull f = true ↔ |f| ≤ 1 / 100000 := by
  simp [qFuzzyIsNull]

theorem qFuzzyIsNull_zero : qFuzzyIsNull 0 = true := by
  simp [qFuzzyIsNull]

theorem update_calls (s : Scene) (t : ℚ) :
    (s.update t).m_camera.calls =
      s.m_camera.calls ++ (translateCall s t :: (panCalls s.m_panAngle ++ tiltCalls s.m_tiltAngle)) := by
  unfold Scene.update panCalls tiltCalls translateCall
  cases hp : qFuzzyIsNull s.m_panAngle <;> cases ht : qFuzzyIsNull s.m_tiltAngle <;>
    simp [hp, ht, Camera.translate, Camera.pan, Camera.tilt, Camera.record]

theorem callsSince_update (s : Scene) (t : ℚ) :
    Camera.callsSince s.m_camera (s.update t).m_camera =
      translateCall s t :: (panCalls s.m_panAngle ++ tiltCalls s.m_tiltAngle) := by
  simp [Camera.callsSince, update_calls]

theorem update_panAngle (s : Scene) (t : ℚ) :
    (s.update t).m_panAngle = if qFuzzyIsNull s.m_panAngle then s.m_panAngle else 0 := by
  unfold Scene.update
  cases hp : qFuzzyIsNull s.m_panAngle <;> cases ht : qFuzzyIsNull s.m_tiltAngle <;>
    simp [hp, ht]

theorem update_tiltAngle (s : Scene) (t : ℚ) :
    (s.update t).m_tiltAngle = if qFuzzyIsNull s.m_tiltAngle then s.m_tiltAngle else 0 := by
  unfold Scene.update
  cases hp : qFuzzyIsNull s.m_panAngle <;> cases ht : qFuzzyIsNull s.m_tiltAngle <;>
    simp [hp, ht]

theorem update_lightMode (s : Scene) (t : ℚ) : (s.update t).m_lightMode = s.m_lightMode := by
  unfold Scene.update
  cases hp : qFuzzyIsNull s.m_panAngle <;> cases ht : qFuzzyIsNull s.m_tiltAngle <;>
    simp [hp, ht]

theorem panCalls_filter_isPan (a : ℚ) : (panCalls a).filter CameraCall.isPan = panCalls a := by
  unfold panCalls; split <;> simp [CameraCall.isPan]

theorem tiltCalls_filter_isPan (a : ℚ) : (tiltCalls a).filter CameraCall.isPan = [] := by
  unfold tiltCalls; split <;> simp [CameraCall.isPan]

theorem panCalls_filter_isTilt (a : ℚ) : (panCalls a).filter CameraCall.isTilt = [] := by
  unfold panCalls; split <;> simp [CameraCall.isTilt]

theorem tiltCalls_filter_isTilt (a : ℚ) :
    (tiltCalls a).filter CameraCall.isTilt = tiltCalls a := by
  unfold tiltCalls; split <;> simp [CameraCall.isTilt]

theorem updates_cons (s : Scene) (t : ℚ) (ts : List ℚ) :
    s.updates (t :: ts) = (s.update t).updates ts := rfl

theorem getLast?_getD_cons {α : Type} (t d : α) (ts : List α) :
    ((t :: ts).getLast?).getD d = (ts.getLast?).getD t := by
  cases ts with
  | nil => simp
  | cons a l =>
    rw [List.getLast?_cons_cons, List.getLast?_eq_getLast (a :: l) (List.cons_ne_nil a l)]
    rfl

theorem updates_panAngle_of_fuzzy (ts : List ℚ) : ∀ s : Scene,
    qFuzzyIsNull s.m_panAngle = true → (s.updates ts).m_panAngle = s.m_panAngle := by
  induction ts with
  | nil => intro s _; rfl
  | cons t ts ih =>
    intro s h
    have h1 : (s.update t).m_panAngle = s.m_panAngle := by rw [update_panAngle, h]; rfl
    rw [updates_cons, ih (s.update t) (by rw [h1]; exact h), h1]

theorem updates_tiltAngle_of_fuzzy (ts : List ℚ) : ∀ s : Scene,
    qFuzzyIsNull s.m_tiltAngle = true → (s.updates ts).m_tiltAngle = s.m_tiltAngle := by
  induction ts with
  | nil => intro s _; rfl
  | cons t ts ih =>
    intro s h
    have h1 : (s.update t).m_tiltAngle = s.m_tiltAngle := by rw [update_tiltAngle, h]; rfl
    rw [updates_cons, ih (s.update t) (by rw [h1]; exact h), h1]

/-- C8: the camera calls issued by `update(t)` are exactly one translate by
`m_v * dt * m_metersToUnits` (moving the view centre unless it is fixed),
then at most one pan about (0,1,0), then at most one tilt, in that order. -/
theorem update_issues_translate_then_pan_then_tilt (s : Scene) (t : ℚ) :
    ∃ pans tilts : List CameraCall,
      Camera.callsSince s.m_camera (s.update t).m_camera =
        CameraCall.translate ((s.m_v.scale (t - s.m_time)).scale s.m_metersToUnits)
          (if s.m_viewCenterFixed then CameraTranslationOption.DontTranslateViewCenter
           else CameraTranslationOption.TranslateViewCenter) :: (pans ++ tilts) ∧
      (pans = [] ∨ pans = [CameraCall.pan s.m_panAngle ⟨0, 1, 0⟩]) ∧
      (tilts = [] ∨ tilts = [CameraCall.tilt s.m_tiltAngle]) := by
  refine ⟨panCalls s.m_panAngle, tiltCalls s.m_tiltAngle, ?_, ?_, ?_⟩
  · rw [callsSince_update]; rfl
  · unfold panCalls; split <;> simp
  · unfold tiltCalls; split <;> simp

/-- C10: `update` issues the pending pan (tilt) rotation and resets the pending
angle to 0 exactly when the absolute value of the angle exceeds 0.00001;
otherwise it issues no such rotation and keeps the angle, which then also
survives any further updates. Each of pan and tilt depends on its own angle
only. -/
theorem update_applies_iff_not_fuzzy_null (s : Scene) (t : ℚ) (later : List ℚ) :
    ((Camera.callsSince s.m_camera (s.update t).m_camera).filter CameraCall.isPan =
        if |s.m_panAngle| ≤ 1 / 100000 then []
        else [CameraCall.pan s.m_panAngle ⟨0, 1, 0⟩]) ∧
    ((s.update t).m_panAngle = if |s.m_panAngle| ≤ 1 / 100000 then s.m_panAngle else 0) ∧
    (((s.update t).updates later).m_panAngle =
        if |s.m_panAngle| ≤ 1 / 100000 then s.m_panAngle else 0) ∧
    ((Camera.callsSince s.m_camera (s.update t).m_camera).filter CameraCall.isTilt =
        if |s.m_tiltAngle| ≤ 1 / 100000 then [] else [CameraCall.tilt s.m_tiltAngle]) ∧
    ((s.update t).m_tiltAngle = if |s.m_tiltAngle| ≤ 1 / 100000 then s.m_tiltAngle else 0) ∧
    (((s.update t).updates later).m_tiltAngle =
        if |s.m_tiltAngle| ≤ 1 / 100000 then s.m_tiltAngle else 0) := by
  have hp : qFuzzyIsNull (s.update t).m_panAngle = true := by
    rw [update_panAngle]; split
    · assumption
    · exact qFuzzyIsNull_zero
  have ht : qFuzzyIsNull (s.update t).m_tiltAngle = true := by
    rw [update_tiltAngle]; split
    · assumption
    · exact qFuzzyIsNull_zero
  have ep : (if |s.m_panAngle| ≤ 1 / 100000 then s.m_panAngle else 0) =
      if qFuzzyIsNull s.m_panAngle then s.m_panAngle else 0 := by
    simp [qFuzzyIsNull]
  have et : (if |s.m_tiltAngle| ≤ 1 / 100000 then s.m_tiltAngle else 0) =
      if qFuzzyIsNull s.m_tiltAngle then s.m_tiltAngle else 0 := by
    simp [qFuzzyIsNull]
  refine ⟨?_, ?_, ?_, ?_, ?_, ?_⟩
  · rw [callsSince_update]
    simp [translateCall, CameraCall.isPan, panCalls_filter_isPan, tiltCalls_filter_isPan,
      panCalls, qFuzzyIsNull]
  · rw [ep, update_panAngle]
  · rw [ep, updates_panAngle_of_fuzzy later _ hp, update_panAngle]
  · rw [callsSince_update]
    simp [translateCall, CameraCall.isTilt, panCalls_filter_isTilt, tiltCalls_filter_isTilt,
      tiltCalls, qFuzzyIsNull]
  · rw [et, update_tiltAngle]
  · rw [et, updates_tiltAngle_of_fuzzy later _ ht, update_tiltAngle]

/-- C2: when `update(t1)` issues a pan (tilt) to the camera, the pending pan
(tilt) angle is 0 afterwards and an immediately following `update(t2)` issues
no pan (tilt) at all. -/
theorem pan_tilt_consumed_once (s : Scene) (t1 t2 : ℚ) :
    ((∃ c ∈ Camera.callsSince s.m_camera (s.update t1).m_camera, c.isPan = true) →
      (s.update t1).m_panAngle = 0 ∧
      ∀ c ∈ Camera.callsSince (s.update t1).m_camera ((s.update t1).update t2).m_camera,
        c.isPan = false) ∧
    ((∃ c ∈ Camera.callsSince s.m_camera (s.update t1).m_camera, c.isTilt = true) →
      (s.update t1).m_tiltAngle = 0 ∧
      ∀ c ∈ Camera.callsSince (s.update t1).m_camera ((s.update t1).update t2).m_camera,
        c.isTilt = false) := by
  constructor
  · rintro ⟨c, hc, hpan⟩
    rw [callsSince_update] at hc
    have hnf : qFuzzyIsNull s.m_panAngle = false := by
      cases h : qFuzzyIsNull s.m_panAngle
      · rfl
      · exfalso
        simp only [List.mem_cons, List.mem_append, panCalls, tiltCalls, h, if_true] at hc
        rcases hc with rfl | hc | hc
        · simp [translateCall, CameraCall.isPan] at hpan
        · simp at hc
        · split at hc
          · simp at hc
          · simp only [List.mem_singleton] at hc
            subst hc
            simp [CameraCall.isPan] at hpan
    have hzero : (s.update t1).m_panAngle = 0 := by rw [update_panAngle, hnf]; rfl
    refine ⟨hzero, ?_⟩
    intro c hc
    rw [callsSince_update, hzero] at hc
    simp only [List.mem_cons, List.mem_append, panCalls, qFuzzyIsNull_zero, if_true] at hc
    rcases hc with rfl | hc | hc
    · rfl
    · simp at hc
    · unfold tiltCalls at hc
      split at hc
      · simp at hc
      · simp only [List.mem_singleton] at hc
        subst hc
        rfl
  · rintro ⟨c, hc, htilt⟩
    rw [callsSince_update] at hc
    have hnf : qFuzzyIsNull s.m_tiltAngle = false := by
      cases h : qFuzzyIsNull s.m_tiltAngle
      · rfl
      · exfalso
        simp only [List.mem_cons, List.mem_append, panCalls, tiltCalls, h, if_true] at hc
        rcases hc with rfl | hc | hc
        · simp [translateCall, CameraCall.isTilt] at htilt
        · split at hc
          · simp at hc
          · simp only [List.mem_singleton] at hc
            subst hc
            simp [CameraCall.isTilt] at htilt
        · simp at hc
    have hzero : (s.update t1).m_tiltAngle = 0 := by rw [update_tiltAngle, hnf]; rfl
    refine ⟨hzero, ?_⟩
    intro c hc
    rw [callsSince_update, hzero] at hc
    simp only [List.mem_cons, List.mem_append, tiltCalls, qFuzzyIsNull_zero, if_true] at hc
    rcases hc with rfl | hc | hc
    · rfl
    · unfold panCalls at hc
      split at hc
      · simp at hc
      · simp only [List.mem_singleton] at hc
        subst hc
        rfl
    · simp at hc

theorem exampleScene_not_fuzzy :
    qFuzzyIsNull exampleScene.m_panAngle = false ∧
      qFuzzyIsNull exampleScene.m_tiltAngle = false := by
  constructor
  · have h : exampleScene.m_panAngle = 1 := rfl
    rw [h]; simp only [qFuzzyIsNull, decide_eq_false_iff_not]; norm_num
  · have h : exampleScene.m_tiltAngle = 2 := rfl
    rw [h]; simp only [qFuzzyIsNull, decide_eq_false_iff_not]; norm_num

theorem exampleScene_issues_pan :
    ∃ c ∈ Camera.callsSince exampleScene.m_camera (exampleScene.update 1).m_camera,
      c.isPan = true := by
  refine ⟨.pan exampleScene.m_panAngle ⟨0, 1, 0⟩, ?_, rfl⟩
  rw [callsSince_update]
  simp [panCalls, exampleScene_not_fuzzy.1]

theorem exampleScene_issues_tilt :
    ∃ c ∈ Camera.callsSince exampleScene.m_camera (exampleScene.update 1).m_camera,
      c.isTilt = true := by
  refine ⟨.tilt exampleScene.m_tiltAngle, ?_, rfl⟩
  rw [callsSince_update]
  simp [tiltCalls, exampleScene_not_fuzzy.2]

/-- Witness for C2 on a new scene with pending pan 1 and pending tilt 2. -/
theorem pan_tilt_consumed_once_witness :
    (∃ c ∈ Camera.callsSince exampleScene.m_camera (exampleScene.update 1).m_camera,
      c.isPan = true) ∧
    (∃ c ∈ Camera.callsSince exampleScene.m_camera (exampleScene.update 1).m_camera,
      c.isTilt = true) ∧
    (exampleScene.update 1).m_panAngle = 0 ∧
    (exampleScene.update 1).m_tiltAngle = 0 ∧
    (∀ c ∈ Camera.callsSince (exampleScene.update 1).m_camera
        ((exampleScene.update 1).update 2).m_camera, c.isPan = false ∧ c.isTilt = false) :=
  ⟨exampleScene_issues_pan, exampleScene_issues_tilt,
    ((pan_tilt_consumed_once exampleScene 1 2).1 exampleScene_issues_pan).1,
    ((pan_tilt_consumed_once exampleScene 1 2).2 exampleScene_issues_tilt).1,
    fun c hc =>
      ⟨((pan_tilt_consumed_once exampleScene 1 2).1 exampleScene_issues_pan).2 c hc,
       ((pan_tilt_consumed_once exampleScene 1 2).2 exampleScene_issues_tilt).2 c hc⟩⟩

theorem run_cons (w : World) (op : SceneOp) (ops : List SceneOp) :
    w.run (op :: ops) = (w.step op).run ops := rfl

theorem resize_of_perspective (w : World) (width height : Int)
    (h : w.scene.m_camera.projectionType = .PerspectiveProjection) :
    w.resize width height =
      { scene := { w.scene with
          m_camera := w.scene.m_camera.setPerspectiveProjection w.scene.m_camera.fieldOfView
            ((width : ℚ) / (height : ℚ)) w.scene.m_camera.nearPlane
            w.scene.m_camera.farPlane }
        gl := { w.gl with viewport := (0, 0, width, height) } } := by
  simp only [World.resize, h, if_true]

theorem resize_of_orthogonal (w : World) (width height : Int)
    (h : w.scene.m_camera.projectionType = .OrthogonalProjection) :
    w.resize width height =
      { scene := { w.scene with
          m_camera := w.scene.m_camera.setOrthographicProjection w.scene.m_camera.left
            w.scene.m_camera.right w.scene.m_camera.bottom w.scene.m_camera.top
            w.scene.m_camera.nearPlane w.scene.m_camera.farPlane }
        gl := { w.gl with viewport := (0, 0, width, height) } } := by
  simp only [World.resize, h, if_true, reduceCtorEq, if_false]

theorem resize_scene (w : World) (width height : Int) :
    (w.resize width height).scene =
      { w.scene with m_camera := (w.resize width height).scene.m_camera } := by
  cases h : w.scene.m_camera.projectionType
  · rw [resize_of_orthogonal w width height h]
  · rw [resize_of_perspective w width height h]

theorem step_lightMode (w : World) (op : SceneOp) :
    (w.step op).scene.m_lightMode = (op.selectedMode).getD w.scene.m_lightMode := by
  cases op with
  | togglePhong b => cases b <;> rfl
  | toggleBlinnPhong b => cases b <;> rfl
  | toggleRimLighting b => cases b <;> rfl
  | update t => exact update_lightMode w.scene t
  | resize width height =>
    show (w.resize width height).scene.m_lightMode = _
    rw [resize_scene]; rfl
  | toggleFill b => cases b <;> rfl
  | toggleWireframe b => cases b <;> rfl
  | togglePoints b => cases b <;> rfl
  | toggleAA b => rfl

theorem run_lightMode (ops : List SceneOp) : ∀ w : World,
    (w.run ops).scene.m_lightMode =
      ((ops.filterMap SceneOp.selectedMode).getLast?).getD w.scene.m_lightMode := by
  induction ops with
  | nil => intro w; rfl
  | cons op ops ih =>
    intro w
    rw [run_cons, ih, step_lightMode]
    cases h : op.selectedMode with
    | none => simp [List.filterMap_cons, h]
    | some m =>
      rw [List.filterMap_cons_some h, getLast?_getD_cons]
      rfl

/-- C1: on a new scene, after any sequence of operations the lighting mode is
the mode of the last light-mode toggle called with `true`, or PerFragmentPhong
if there was none; `toggleBlinnPhong(true)` then `toggleRimLighting(true)`
leaves RimLighting from any state; a light-mode toggle called with `false`
changes nothing. -/
theorem lightMode_last_writer_wins (camera : Camera) (gl : GLState) (ops : List SceneOp) :
    ((World.mk (Scene.new camera) gl).run ops).scene.m_lightMode = specLightMode ops ∧
    (∀ s : Scene,
      ((s.toggleBlinnPhong true).toggleRimLighting true).m_lightMode = LightMode.RimLighting) ∧
    (∀ s : Scene,
      s.togglePhong false = s ∧ s.toggleBlinnPhong false = s ∧
        s.toggleRimLighting false = s) := by
  refine ⟨?_, fun _ => rfl, fun _ => ⟨rfl, rfl, rfl⟩⟩
  rw [run_lightMode]
  rfl

/-- C5: `toggleFill(false)`, `toggleWireframe(false)` and `togglePoints(false)`
leave the whole GPU state and every scene field as they were, in any state. -/
theorem fill_wireframe_points_false_noop (w : World) :
    w.toggleFill false = w ∧ w.toggleWireframe false = w ∧ w.togglePoints false = w ∧
    (∀ ops : List SceneOp,
      ((w.run ops).toggleFill false = w.run ops ∧
        (w.run ops).toggleWireframe false = w.run ops ∧
        (w.run ops).togglePoints false = w.run ops)) :=
  ⟨rfl, rfl, rfl, fun _ => ⟨rfl, rfl, rfl⟩⟩

/-- C4: with a Perspective camera and nonzero heights, `resize(w1,h1)` followed
by `resize(w2,h2)` calls `setPerspectiveProjection` last with the field of
view, near plane and far plane the camera had before the first resize and with
aspect `w2/h2`; the camera's projection parameters and the GPU state end up as
after `resize(w2,h2)` alone. -/
theorem resize_no_stale_aspect (w : World) (w1 h1 w2 h2 : Int)
    (hp : w.scene.m_camera.projectionType = ProjectionType.PerspectiveProjection)
    (_hh1 : h1 ≠ 0) (_hh2 : h2 ≠ 0) :
    ((w.resize w1 h1).resize w2 h2).scene.m_camera.calls.getLast? =
        some (CameraCall.setPerspectiveProjection w.scene.m_camera.fieldOfView
          ((w2 : ℚ) / (h2 : ℚ)) w.scene.m_camera.nearPlane w.scene.m_camera.farPlane) ∧
    ((w.resize w1 h1).resize w2 h2).scene.m_camera.projectionType =
        ProjectionType.PerspectiveProjection ∧
    ((w.resize w1 h1).resize w2 h2).scene.m_camera.aspectRatio = (w2 : ℚ) / (h2 : ℚ) ∧
    ((w.resize w1 h1).resize w2 h2).scene.m_camera.fieldOfView =
        w.scene.m_camera.fieldOfView ∧
    ((w.resize w1 h1).resize w2 h2).scene.m_camera.nearPlane = w.scene.m_camera.nearPlane ∧
    ((w.resize w1 h1).resize w2 h2).scene.m_camera.farPlane = w.scene.m_camera.farPlane ∧
    ((w.resize w1 h1).resize w2 h2).scene.m_camera.projectionState =
        (w.resize w2 h2).scene.m_camera.projectionState ∧
    ((w.resize w1 h1).resize w2 h2).gl = (w.resize w2 h2).gl := by
  have h1p : (w.resize w1 h1).scene.m_camera.projectionType =
      ProjectionType.PerspectiveProjection := by
    rw [resize_of_perspective w w1 h1 hp]; rfl
  rw [resize_of_perspective (w.resize w1 h1) w2 h2 h1p, resize_of_perspective w w1 h1 hp,
    resize_of_perspective w w2 h2 hp]
  refine ⟨?_, rfl, rfl, rfl, rfl, rfl, rfl, rfl⟩
  simp [Camera.setPerspectiveProjection]

/-- Witness for C4: a new scene with a Perspective camera resized to 4x3 and
then to 16x9. -/
theorem resize_no_stale_aspect_witness :
    exampleWorld.scene.m_camera.projectionType = ProjectionType.PerspectiveProjection ∧
    ((exampleWorld.resize 4 3).resize 16 9).scene.m_camera.aspectRatio =
      ((16 : Int) : ℚ) / ((9 : Int) : ℚ) ∧
    ((exampleWorld.resize 4 3).resize 16 9).scene.m_camera.projectionState =
      (exampleWorld.resize 16 9).scene.m_camera.projectionState :=
  ⟨rfl,
    (resize_no_stale_aspect exampleWorld 4 3 16 9 rfl (by decide) (by decide)).2.2.1,
    (resize_no_stale_aspect exampleWorld 4 3 16 9 rfl (by decide) (by decide)).2.2.2.2.2.2.1⟩

/-- C6: `resize(width, height)` keeps the camera's projection type and every
scene member other than the camera. For an Orthographic camera it calls
`setOrthographicProjection` once with the stored bounds, so the projection
parameters are unchanged whatever the width and height; for a Perspective
camera it calls `setPerspectiveProjection` once with the stored field of view,
near and far plane, so only the aspect ratio changes. -/
theorem resize_keeps_projection_type (w : World) (width height : Int) :
    (w.resize width height).scene.m_camera.projectionType =
        w.scene.m_camera.projectionType ∧
    (w.resize width height).scene =
        { w.scene with m_camera := (w.resize width height).scene.m_camera } ∧
    (match w.scene.m_camera.projectionType with
      | ProjectionType.OrthogonalProjection =>
        Camera.callsSince w.scene.m_camera (w.resize width height).scene.m_camera =
            [CameraCall.setOrthographicProjection w.scene.m_camera.left
              w.scene.m_camera.right w.scene.m_camera.bottom w.scene.m_camera.top
              w.scene.m_camera.nearPlane w.scene.m_camera.farPlane] ∧
          (w.resize width height).scene.m_camera.projectionState =
            w.scene.m_camera.projectionState
      | ProjectionType.PerspectiveProjection =>
        Camera.callsSince w.scene.m_camera (w.resize width height).scene.m_camera =
            [CameraCall.setPerspectiveProjection w.scene.m_camera.fieldOfView
              ((width : ℚ) / (height : ℚ)) w.scene.m_camera.nearPlane
              w.scene.m_camera.farPlane] ∧
          (w.resize width height).scene.m_camera.projectionState =
            { w.scene.m_camera.projectionState with
              aspectRatio := (width : ℚ) / (height : ℚ) }) := by
  refine ⟨?_, resize_scene w width height, ?_⟩
  · cases h : w.scene.m_camera.projectionType
    · rw [resize_of_orthogonal w width height h]; rfl
    · rw [resize_of_perspective w width height h]; rfl
  · cases h : w.scene.m_camera.projectionType
    · rw [resize_of_orthogonal w width height h]
      refine ⟨?_, ?_⟩
      · simp [Camera.callsSince, Camera.setOrthographicProjection]
      · simp only [Camera.setOrthographicProjection, Camera.projectionState, ← h]
    · rw [resize_of_perspective w width height h]
      refine ⟨?_, ?_⟩
      · simp [Camera.callsSince, Camera.setPerspectiveProjection]
      · simp only [Camera.setPerspectiveProjection, Camera.projectionState, ← h]

/-- C7: `initialize()` ends in the fatal branch exactly when the context returns
no function table. In that case it stops with the message of `qFatal` and the
world equal to the one it was called in (shader, GPU state, light, managers and
model untouched; `m_funcs` null). Given a function table it returns with the
four managers created and the initial model load requested. -/
theorem initialize_fatal_iff_no_functions (versionFunctions : Option GLFunctions)
    (w : World) :
    ((∃ message atExit, w.initializeScene versionFunctions =
        World.InitOutcome.fatal message atExit) ↔ versionFunctions = none) ∧
    w.initializeScene none =
      World.InitOutcome.fatal "Requires OpenGL >= 4.3"
        { w with scene := { w.scene with m_funcs := none } } ∧
    (∀ funcs : GLFunctions, ∃ after : World,
      w.initializeScene (some funcs) = World.InitOutcome.initialized after ∧
      after.scene.m_funcs = some { funcs with initialized := true } ∧
      after.scene.m_shader ≠ none ∧
      after.scene.m_modelManager = some Manager.ModelManager ∧
      after.scene.m_materialManager = some Manager.MaterialManager ∧
      after.scene.m_textureManager = some Manager.TextureManager ∧
      after.scene.m_meshManager = some Manager.MeshManager ∧
      after.scene.m_model = some ⟨"UH60", "assets/blackhawk/uh60.lwo"⟩) := by
  refine ⟨?_, rfl, ?_⟩
  · cases versionFunctions with
    | none => exact ⟨fun _ => rfl, fun _ => ⟨_, _, rfl⟩⟩
    | some funcs =>
      constructor
      · rintro ⟨message, atExit, h⟩
        simp [World.initializeScene] at h
      · intro h; cases h
  · intro funcs
    refine ⟨_, rfl, rfl, ?_, rfl, rfl, rfl, rfl, rfl⟩
    simp [Scene.prepareShaders]

end ObjectViewer
